import Mathlib

/-!
Verification of the WOPR VideoGen capability plugin (src/index.ts).

The TypeScript source is shallowly embedded: pure helpers become Lean
functions, the two request handlers become functions from their inputs and
the host's responses (confirmation answer, capability-broker reply) to the
observable outcome (replies sent, whether the broker was contacted, the
dispatched payload), and the plugin lifecycle becomes explicit state
passing.  JavaScript runtime primitives the source relies on
(String.prototype.trim/toLowerCase/startsWith, Number coercion, value
truthiness, JSON.parse) are modelled explicitly below, restricted to the
value shapes this plugin exchanges.
-/

namespace VideoGen

/-! ## Models of the JavaScript runtime primitives used by the source -/

/-- Whitespace as trimmed by `String.prototype.trim` (ASCII subset). -/
def jsWs (c : Char) : Bool :=
  c = ' ' || c = '\t' || c = '\n' || c = '\r'

/-- Drop leading and trailing whitespace from a character list. -/
def trimChars (cs : List Char) : List Char :=
  ((cs.dropWhile jsWs).reverse.dropWhile jsWs).reverse

/-- ASCII lower-casing of one character, as `String.prototype.toLowerCase`
acts on the ASCII range (the only range this plugin compares against). -/
def asciiLower (c : Char) : Char :=
  if 65 ≤ c.toNat ∧ c.toNat ≤ 90 then Char.ofNat (c.toNat + 32) else c

/-- Model of `s.trim().toLowerCase()` from the confirmation gate. -/
def jsTrimLowerCase (s : String) : String :=
  String.mk ((trimChars s.toList).map asciiLower)

/-- Model of `String.prototype.startsWith`. -/
def strStartsWith (s p : String) : Bool :=
  p.toList.isPrefixOf s.toList

/-- JavaScript truthiness of a possibly-absent string: `undefined`/`null`
and the empty string are falsy, every other string is truthy. -/
def jsTruthy : Option String → Bool
  | none => false
  | some s => if s = "" then false else true

/-- A JavaScript number as this plugin can produce one for the `duration`
field: an integer, or NaN (`typeof NaN === "number"` in JS, so NaN is
still a number value). -/
inductive JsNum where
  | int : Int → JsNum
  | nan : JsNum
deriving DecidableEq, Repr

/-- Fold decimal digits to a natural number. -/
def digitsToNat (cs : List Char) : Nat :=
  cs.foldl (fun n c => 10 * n + (c.toNat - 48)) 0

/-- Model of the JS `Number(string)` coercion, restricted to the literals
this plugin passes: optionally signed decimal integer strings (possibly
surrounded by whitespace) convert to integers, the empty string converts
to 0, and everything else is NaN.  Fractional, hexadecimal and exponent
literals are not modelled. -/
def jsNumber (s : String) : JsNum :=
  match trimChars s.toList with
  | [] => JsNum.int 0
  | '-' :: cs =>
    if !cs.isEmpty && cs.all Char.isDigit then JsNum.int (-(digitsToNat cs : Int)) else JsNum.nan
  | '+' :: cs =>
    if !cs.isEmpty && cs.all Char.isDigit then JsNum.int (digitsToNat cs) else JsNum.nan
  | cs =>
    if cs.all Char.isDigit then JsNum.int (digitsToNat cs) else JsNum.nan

/-- Substring search over character lists (does `n` occur inside `h`?). -/
def containsSub (h n : List Char) : Bool :=
  match h with
  | [] => n.isEmpty
  | _ :: t => n.isPrefixOf h || containsSub t n

/-- Does the string `h` contain `n` as a substring? -/
def containsStr (h n : String) : Bool :=
  containsSub h.toList n.toList

/-! ### Model of `JSON.parse`

The broker protocol exchanges flat JSON objects whose values are strings
(`‹url›`/`‹error›` envelopes).  `jsonParse` models `JSON.parse` restricted
to that shape: an object literal with string keys and string values (no
escape sequences) parses to its key/value list; every other document is
treated as unparseable, which sends the normalizer to its fallback branch
exactly as a `JSON.parse` exception does in the source. -/

/-- Skip JSON whitespace. -/
def skipWs : List Char → List Char
  | [] => []
  | c :: cs => if jsWs c then skipWs cs else c :: cs

/-- Parse the body of a JSON string literal after the opening quote
(rejecting escape sequences), returning the content and the rest. -/
def parseStringBody : List Char → List Char → Option (String × List Char)
  | [], _ => none
  | c :: cs, acc =>
    if c = '"' then some (String.mk acc.reverse, cs)
    else if c = '\\' then none
    else parseStringBody cs (c :: acc)

/-- Parse a JSON string literal. -/
def parseStringLit : List Char → Option (String × List Char)
  | '"' :: cs => parseStringBody cs []
  | _ => none

/-- Parse the members of a JSON object after the opening brace, fuelled by
the input length. -/
def parseMembers : Nat → List Char → List (String × String) →
    Option (List (String × String) × List Char)
  | 0, _, _ => none
  | fuel + 1, cs, acc =>
    match parseStringLit (skipWs cs) with
    | none => none
    | some (k, cs1) =>
      match skipWs cs1 with
      | ':' :: cs2 =>
        match parseStringLit (skipWs cs2) with
        | none => none
        | some (v, cs3) =>
          match skipWs cs3 with
          | ',' :: cs4 => parseMembers fuel cs4 ((k, v) :: acc)
          | '}' :: cs5 => some (((k, v) :: acc).reverse, cs5)
          | _ => none
      | _ => none

/-- Model of `JSON.parse` (see the section comment): `some` of the
key/value list when the document is a flat string-valued object, `none`
when `JSON.parse` would throw (or produce a non-object this model does not
cover). -/
def jsonParse (raw : String) : Option (List (String × String)) :=
  match skipWs raw.toList with
  | '{' :: cs =>
    match skipWs cs with
    | '}' :: cs1 => if (skipWs cs1).isEmpty then some [] else none
    | _ =>
      match parseMembers raw.length cs [] with
      | some (obj, rest) => if (skipWs rest).isEmpty then some obj else none
      | none => none
  | _ => none

/-- Reading a field of a parsed JSON object (JS semantics: with duplicate
keys the last occurrence wins). -/
def jsField (obj : List (String × String)) (key : String) : Option String :=
  (obj.reverse.find? (fun kv => kv.fst = key)).map Prod.snd

/-! ## The source's data model -/

/-- The persisted configuration record (interface VideoGenConfig,
src/index.ts lines 83-89); every field is optional. -/
structure VideoGenConfig where
  provider : Option String := none
  model : Option String := none
  duration : Option String := none
  aspectRatio : Option String := none
  apiKey : Option String := none
deriving DecidableEq, Repr

/-- Result of `parseVideoArgs` (src/index.ts lines 95-100). -/
structure ParsedVideoArgs where
  prompt : String
  model : Option String := none
  duration : Option String := none
  aspectRatio : Option String := none
deriving DecidableEq, Repr

/-- `promptParts.join(" ")`: join strings with a single space. -/
def joinSp : List String → String
  | [] => ""
  | [p] => p
  | p :: ps => p ++ " " ++ joinSp ps

/-- The scanning loop of `parseVideoArgs` (src/index.ts lines 106-117):
`parts` accumulates the prompt tokens in order, the three trailing options
hold the flag values seen so far.  The source consumes a recognized flag's
value with `args[++i]` guarded by `i + 1 < args.length`; here that
two-token step is expressed one token at a time through `pending`, which
holds a recognized flag token awaiting its value.  A pending flag whose
value never arrives — a flag in final position — is appended to the
prompt as plain text, exactly the source's failed `i + 1 < args.length`
guard. -/
def parseVideoArgsGo : List String → List String → Option String → Option String →
    Option String → Option String → ParsedVideoArgs
  | [], parts, pending, m, d, a =>
    match pending with
    | none => { prompt := joinSp parts, model := m, duration := d, aspectRatio := a }
    | some f => { prompt := joinSp (parts ++ [f]), model := m, duration := d, aspectRatio := a }
  | t :: rest, parts, pending, m, d, a =>
    match pending with
    | some f =>
      if f = "--model" then parseVideoArgsGo rest parts none (some t) d a
      else if f = "--duration" then parseVideoArgsGo rest parts none m (some t) a
      else parseVideoArgsGo rest parts none m d (some t)
    | none =>
      if t = "--model" then parseVideoArgsGo rest parts (some t) m d a
      else if t = "--duration" then parseVideoArgsGo rest parts (some t) m d a
      else if t = "--aspect" then parseVideoArgsGo rest parts (some t) m d a
      else parseVideoArgsGo rest (parts ++ [t]) none m d a

/-- Translation of `parseVideoArgs` (src/index.ts lines 95-121).  Total:
the parser never throws. -/
def parseVideoArgs (args : List String) : ParsedVideoArgs :=
  parseVideoArgsGo args [] none none none none

/-- One of the three flag tokens the parser recognizes. -/
def isVideoFlag (t : String) : Prop :=
  t = "--model" ∨ t = "--duration" ∨ t = "--aspect"

instance decIsVideoFlag (t : String) : Decidable (isVideoFlag t) :=
  inferInstanceAs (Decidable (t = "--model" ∨ t = "--duration" ∨ t = "--aspect"))

/-- The normalizer's uniform result shape `\x7burl?, error?\x7d`. -/
structure SocketResult where
  url : Option String := none
  error : Option String := none
deriving DecidableEq, Repr

/-- Translation of `parseSocketResponse` (src/index.ts lines 127-133):
try JSON, and on failure treat an `http`-prefixed string as a bare URL,
anything else as an opaque error message. -/
def parseSocketResponse (raw : String) : SocketResult :=
  match jsonParse raw with
  | some obj => { url := jsField obj "url", error := jsField obj "error" }
  | none =>
    if strStartsWith raw "http" then { url := some raw } else { error := some raw }

/-! ## User-visible message constants (src/index.ts, verbatim) -/

/-- Generic failure reply (chat path line 243 and 255, tool path lines 387
and 396). -/
def genericFailureMsg : String := "Video generation failed. Please try again."

/-- Actionable reply for the `insufficient_credits` error on the chat path
(line 240). -/
def insufficientCreditsMsg : String :=
  "You don't have enough credits for video generation. Add credits to continue."

/-- Reply sent when the confirmation is declined (line 204). -/
def cancelledMsg : String := "Video generation cancelled."

/-- Chat reply when the broker result has neither url nor error (line 251). -/
def noUrlChatMsg : String := "Video generation completed but no URL was returned."

/-- Tool text when the broker result has no url (line 392, `??` fallback). -/
def noUrlToolMsg : String := "No URL returned"

/-- Tool result text when the plugin context is gone (line 356). -/
def notInitializedMsg : String := "Plugin not initialized"

/-- Usage help text (lines 176-185). -/
def usageMsg : String :=
  "**Usage:** `/video <prompt>`\n\n**Options:**\n" ++
  "`--model <name>` — Model to use (minimax-video, wan-2.1, kling-1.6, luma-ray2)\n" ++
  "`--duration <seconds>` — Duration (3, 5, 10)\n" ++
  "`--aspect <ratio>` — Aspect ratio (16:9, 9:16, 1:1)\n\n**Sub-commands:**\n" ++
  "`/video settings` — Show current settings\n" ++
  "`/video models` — List available models"

/-- The `/video models` reply (lines 161-167). -/
def modelsMsg : String :=
  "**Available Video Models**\n\n" ++
  "`minimax-video` — Minimax Video-01 (fast, good quality)\n" ++
  "`wan-2.1` — Wan 2.1 (high quality, slower)\n" ++
  "`kling-1.6` — Kling 1.6 (cinematic)\n" ++
  "`luma-ray2` — Luma Ray2 (photorealistic)\n\n" ++
  "Use: `/video <prompt> --model <name>`"

/-- The `/video settings` reply (lines 148-154). -/
def settingsMsg (config : VideoGenConfig) : String :=
  "**Video Generation Settings**\n\n" ++
  "**Provider:** " ++ config.provider.getD "replicate" ++ "\n" ++
  "**Model:** " ++ config.model.getD "minimax-video" ++ "\n" ++
  "**Duration:** " ++ config.duration.getD "5" ++ "s\n" ++
  "**Aspect Ratio:** " ++ config.aspectRatio.getD "16:9" ++ "\n" ++
  "**BYOK:** " ++ (if jsTruthy config.apiKey then "Configured" else "Using hosted credits")

/-- The progress notice sent before dispatch (lines 209-213). -/
def progressMsg (prompt model duration aspectRatio : String) : String :=
  "Generating video... This may take 30s-2min.\n" ++
  "**Prompt:** " ++ prompt ++ "\n" ++
  "**Model:** " ++ model ++ " | **Duration:** " ++ duration ++ "s | **Aspect:** " ++ aspectRatio

/-! ## Request payload construction and response mapping -/

/-- The `input` object of a capability request (lines 221-227 / 372-378). -/
structure CapabilityInput where
  prompt : String
  model : String
  duration : JsNum
  aspectRatio : String
  apiKey : Option String := none
deriving DecidableEq, Repr

/-- The capability-request envelope (lines 219-228 / 370-379).  The source
serializes it with `JSON.stringify`; the embedding keeps it structured. -/
structure CapabilityRequest where
  capability : String
  input : CapabilityInput
deriving DecidableEq, Repr

/-- The conditional spread `...(apiKey ? \x7bapiKey\x7d : \x7b\x7d)` (lines 226/377):
the key is attached only when truthy (present and non-empty). -/
def jsApiKeyField (k : Option String) : Option String :=
  if jsTruthy k then k else none

/-- The chat path's payload (lines 189-191 defaulting, 219-228 envelope):
overrides layered over config over hard-coded defaults, duration coerced
with `Number`. -/
def chatCapabilityRequest (parsed : ParsedVideoArgs) (config : VideoGenConfig) :
    CapabilityRequest :=
  { capability := "video-generation",
    input :=
      { prompt := parsed.prompt,
        model := parsed.model.getD (config.model.getD "minimax-video"),
        duration := jsNumber (parsed.duration.getD (config.duration.getD "5")),
        aspectRatio := parsed.aspectRatio.getD (config.aspectRatio.getD "16:9"),
        apiKey := jsApiKeyField config.apiKey } }

/-- The agent tool's payload (lines 360-362 defaulting, 370-379 envelope).
`config` is the snapshot captured at init and may be absent; the duration
argument is already a number when supplied. -/
def toolCapabilityRequest (prompt : String) (modelArg : Option String)
    (durationArg : Option JsNum) (aspectArg : Option String)
    (config : Option VideoGenConfig) : CapabilityRequest :=
  { capability := "video-generation",
    input :=
      { prompt := prompt,
        model := modelArg.getD ((config.bind VideoGenConfig.model).getD "minimax-video"),
        duration := durationArg.getD (jsNumber ((config.bind VideoGenConfig.duration).getD "5")),
        aspectRatio := aspectArg.getD ((config.bind VideoGenConfig.aspectRatio).getD "16:9"),
        apiKey := jsApiKeyField (config.bind VideoGenConfig.apiKey) } }

/-- The chat path's mapping from the normalized broker result to the reply
text (lines 238-252): sanitized error message, the URL itself, or the
no-URL notice.  `if (result.error)` / `if (result.url)` are truthiness
tests, so empty strings fall through. -/
def chatResultReply (result : SocketResult) : String :=
  if jsTruthy result.error then
    if result.error = some "insufficient_credits" then insufficientCreditsMsg
    else genericFailureMsg
  else if jsTruthy result.url then result.url.getD ""
  else noUrlChatMsg

/-- One `\x7btype, text\x7d` item of an A2A tool result. -/
structure A2AContentItem where
  type : String
  text : String
deriving DecidableEq, Repr

/-- An A2A tool result: content items plus the optional error flag. -/
structure A2AToolResult where
  content : List A2AContentItem
  isError : Option Bool := none
deriving DecidableEq, Repr

/-- The tool path's mapping from the normalized broker result to the tool
result (lines 384-392): every truthy error becomes the generic failure
(no insufficient-credits special case here), otherwise `url ?? "No URL
returned"`. -/
def toolResult (result : SocketResult) : A2AToolResult :=
  if jsTruthy result.error then
    { content := [{ type := "text", text := genericFailureMsg }], isError := some true }
  else
    { content := [{ type := "text", text := result.url.getD noUrlToolMsg }] }

/-! ## The two handlers -/

/-- The broker's behaviour on one `ctx.inject("__capability__", ...)` call:
it resolves to a raw string or the awaited promise rejects (the `catch`
branch in the source). -/
inductive InjectResponse where
  | ok : String → InjectResponse
  | thrown : InjectResponse
deriving DecidableEq, Repr

/-- The confirmation gate's predicate (line 203):
`confirmation && ["yes", "y"].includes(confirmation.trim().toLowerCase())`.
`none` models an absent (undefined/null) response. -/
def confirmAffirmative : Option String → Bool
  | none => false
  | some s =>
    if s = "" then false
    else if jsTrimLowerCase s = "yes" then true
    else if jsTrimLowerCase s = "y" then true
    else false

/-- Observable outcome of one chat command invocation: the `cmdCtx.reply`
calls in order, whether the `__capability__` inject was made, and the
dispatched payload if so. -/
structure ChatOutcome where
  replies : List String
  capabilityCalled : Bool
  payload : Option CapabilityRequest
deriving DecidableEq, Repr

/-- Translation of `handleVideoCommand` (src/index.ts lines 139-257) as a
function of the command arguments, the configuration read for this
invocation, the user's confirmation answer and the broker's response. -/
def handleVideoCommand (args : List String) (config : VideoGenConfig)
    (confirmResponse : Option String) (capabilityResponse : InjectResponse) : ChatOutcome :=
  if args.head? = some "settings" then
    { replies := [settingsMsg config], capabilityCalled := false, payload := none }
  else if args.head? = some "models" then
    { replies := [modelsMsg], capabilityCalled := false, payload := none }
  else
    let parsed := parseVideoArgs args
    if parsed.prompt = "" then
      { replies := [usageMsg], capabilityCalled := false, payload := none }
    else
      let model := parsed.model.getD (config.model.getD "minimax-video")
      let duration := parsed.duration.getD (config.duration.getD "5")
      let aspectRatio := parsed.aspectRatio.getD (config.aspectRatio.getD "16:9")
      if confirmAffirmative confirmResponse then
        let req := chatCapabilityRequest parsed config
        match capabilityResponse with
        | InjectResponse.ok raw =>
          { replies := [progressMsg parsed.prompt model duration aspectRatio,
                        chatResultReply (parseSocketResponse raw)],
            capabilityCalled := true, payload := some req }
        | InjectResponse.thrown =>
          { replies := [progressMsg parsed.prompt model duration aspectRatio,
                        genericFailureMsg],
            capabilityCalled := true, payload := some req }
      else
        { replies := [cancelledMsg], capabilityCalled := false, payload := none }

/-- Observable outcome of one `generate_video` tool invocation. -/
structure ToolOutcome where
  result : A2AToolResult
  capabilityCalled : Bool
  payload : Option CapabilityRequest
deriving DecidableEq, Repr

/-- Translation of the `generate_video` tool handler (src/index.ts lines
354-400).  `initialized` is whether `pluginCtx` is still set; `config` is
the snapshot captured during `init`.  No confirmation step exists on this
path. -/
def generateVideoTool (initialized : Bool) (prompt : String) (modelArg : Option String)
    (durationArg : Option JsNum) (aspectArg : Option String)
    (config : Option VideoGenConfig) (capabilityResponse : InjectResponse) : ToolOutcome :=
  if initialized then
    let req := toolCapabilityRequest prompt modelArg durationArg aspectArg config
    match capabilityResponse with
    | InjectResponse.ok raw =>
      { result := toolResult (parseSocketResponse raw),
        capabilityCalled := true, payload := some req }
    | InjectResponse.thrown =>
      { result := { content := [{ type := "text", text := genericFailureMsg }],
                    isError := some true },
        capabilityCalled := true, payload := some req }
  else
    { result := { content := [{ type := "text", text := notInitializedMsg }],
                  isError := some true },
      capabilityCalled := false, payload := none }

/-- One entry of the static model catalog (lines 410-415). -/
structure ModelDescriptor where
  id : String
  name : String
  speed : String
  quality : String
deriving DecidableEq, Repr

/-- The static model catalog returned by `list_video_models`. -/
def videoModelCatalog : List ModelDescriptor :=
  [ { id := "minimax-video", name := "Minimax Video-01", speed := "fast", quality := "good" },
    { id := "wan-2.1", name := "Wan 2.1", speed := "slow", quality := "high" },
    { id := "kling-1.6", name := "Kling 1.6", speed := "medium", quality := "cinematic" },
    { id := "luma-ray2", name := "Luma Ray2", speed := "medium", quality := "photorealistic" } ]

/-- Outcome of `list_video_models` (the JSON text it stringifies, kept
structured). -/
structure ModelsToolOutcome where
  models : List ModelDescriptor
  isError : Option Bool := none
deriving DecidableEq, Repr

/-- Translation of the `list_video_models` handler (lines 409-417): it
returns the static catalog and performs no initialization check — the
parameter is ignored exactly as the source body never reads `pluginCtx`. -/
def listVideoModelsTool (_pluginActive : Bool) : ModelsToolOutcome :=
  { models := videoModelCatalog }

/-- The settings object `get_video_settings` stringifies (lines 432-439),
kept structured. -/
structure SettingsView where
  provider : String
  model : String
  duration : String
  aspectRatio : String
  byokConfigured : Bool
deriving DecidableEq, Repr

/-- Translation of the `get_video_settings` handler (lines 426-446):
`pluginCtx?.getConfig() ?? \x7b\x7d` — when the plugin is shut down the empty
config is used and the defaults are reported; there is no
initialization check, the result is a normal (non-error) tool result. -/
def getVideoSettingsTool (pluginActive : Bool) (currentConfig : VideoGenConfig) : SettingsView :=
  let c : VideoGenConfig := if pluginActive then currentConfig else {}
  { provider := c.provider.getD "replicate",
    model := c.model.getD "minimax-video",
    duration := c.duration.getD "5",
    aspectRatio := c.aspectRatio.getD "16:9",
    byokConfigured := jsTruthy c.apiKey }

/-- The registered `/video` command handler (lines 459-463): it returns
without any reply when `pluginCtx` is gone, otherwise it reads the current
configuration and runs `handleVideoCommand`. -/
def videoCommandHandler (pluginActive : Bool) (currentConfig : VideoGenConfig)
    (args : List String) (confirmResponse : Option String)
    (capabilityResponse : InjectResponse) : ChatOutcome :=
  if pluginActive then handleVideoCommand args currentConfig confirmResponse capabilityResponse
  else { replies := [], capabilityCalled := false, payload := none }

/-! ## Configuration snapshot vs. re-read (claim C10) -/

/-- The two configuration values observable by handlers: the snapshot
`const config = ctx.getConfig()` captured during `init` (line 307, closed
over by `generate_video`) and the configuration the host would return
right now. -/
structure PluginWorld where
  configAtInit : Option VideoGenConfig
  configCurrent : VideoGenConfig
deriving DecidableEq, Repr

/-- `generate_video` as a function of the world: it resolves defaults and
the API key from the init-time snapshot (lines 360-362, 377). -/
def generateVideoToolW (w : PluginWorld) (initialized : Bool) (prompt : String)
    (modelArg : Option String) (durationArg : Option JsNum) (aspectArg : Option String)
    (capabilityResponse : InjectResponse) : ToolOutcome :=
  generateVideoTool initialized prompt modelArg durationArg aspectArg w.configAtInit
    capabilityResponse

/-- The `/video` handler as a function of the world: it calls
`pluginCtx.getConfig()` on every invocation (line 461). -/
def videoCommandHandlerW (w : PluginWorld) (pluginActive : Bool) (args : List String)
    (confirmResponse : Option String) (capabilityResponse : InjectResponse) : ChatOutcome :=
  videoCommandHandler pluginActive w.configCurrent args confirmResponse capabilityResponse

/-- `get_video_settings` as a function of the world: it calls
`pluginCtx?.getConfig()` on every invocation (line 427). -/
def getVideoSettingsToolW (w : PluginWorld) (pluginActive : Bool) : SettingsView :=
  getVideoSettingsTool pluginActive w.configCurrent

/-! ## Lifecycle: shutdown (claim C7) and command registration (claim C8) -/

/-- The module-level mutable state `shutdown` touches: whether `pluginCtx`
is set, the registered-provider-id list, and how many cleanup callbacks
are pending. -/
structure PluginState where
  hasCtx : Bool
  registeredProviderIds : List String
  cleanupCount : Nat
deriving DecidableEq, Repr

/-- The externally visible unregistration calls `shutdown` can make. -/
inductive ShutdownAction where
  | runCleanup : ShutdownAction
  | unregisterCommand : String → ShutdownAction
  | unregisterCapabilityProvider : String → String → ShutdownAction
  | unregisterConfigSchema : String → ShutdownAction
deriving DecidableEq, Repr

/-- Translation of `shutdown` (src/index.ts lines 496-519): the idempotent
guard returns immediately without any action when `pluginCtx` is null;
otherwise cleanups run, the command is unregistered from every registered
provider the host still knows (`getChannelProvider` may return undefined,
modelled by `providerExists`), the capability provider and config schema
are unregistered, and all bookkeeping is cleared. -/
def shutdown (providerExists : String → Bool) (s : PluginState) :
    PluginState × List ShutdownAction :=
  if s.hasCtx then
    ( { hasCtx := false, registeredProviderIds := [], cleanupCount := 0 },
      List.replicate s.cleanupCount ShutdownAction.runCleanup ++
      (s.registeredProviderIds.filter providerExists).map ShutdownAction.unregisterCommand ++
      [ShutdownAction.unregisterCapabilityProvider "video-generation" "videogen-replicate",
       ShutdownAction.unregisterConfigSchema "wopr-plugin-videogen"] )
  else (s, [])

/-- Command-registration bookkeeping: the registered-id list the source
keeps, plus the cumulative log of `registerCommand` calls actually made
(one entry per call, in order). -/
structure RegState where
  registeredProviderIds : List String
  registrationLog : List String
deriving DecidableEq, Repr

/-- Register the `/video` command on one provider and record its id
(lines 456-465 / 477-486). -/
def registerOn (s : RegState) (p : String) : RegState :=
  { registeredProviderIds := s.registeredProviderIds ++ [p],
    registrationLog := s.registrationLog ++ [p] }

/-- The init-time registration loop (lines 454-467): register on every
provider the host returns. -/
def initRegister (providers : List String) : RegState :=
  providers.foldl registerOn { registeredProviderIds := [], registrationLog := [] }

/-- The late-join event listener body (lines 471-490): for each provider
the host now knows, register only if its id is not already recorded. -/
def lateJoinFire (providers : List String) (s : RegState) : RegState :=
  providers.foldl
    (fun t p => if p ∈ t.registeredProviderIds then t else registerOn t p) s

/-! ## Lemmas about the argument parser -/

/-- A run of non-flag tokens is appended, in order, to the accumulated
prompt parts, leaving the option accumulators untouched. -/
theorem parseVideoArgsGo_flagFree (args : List String)
    (h : ∀ t ∈ args, ¬ isVideoFlag t) :
    ∀ (parts : List String) (m d a : Option String),
      parseVideoArgsGo args parts none m d a =
        { prompt := joinSp (parts ++ args), model := m, duration := d, aspectRatio := a } := by
  induction args with
  | nil => intro parts m d a; simp [parseVideoArgsGo]
  | cons arg rest ih =>
    intro parts m d a
    have harg : ¬ isVideoFlag arg := h arg (by simp)
    have hrest : ∀ t ∈ rest, ¬ isVideoFlag t := fun t ht => h t (by simp [ht])
    have h1 : arg ≠ "--model" := fun he => harg (Or.inl he)
    have h2 : arg ≠ "--duration" := fun he => harg (Or.inr (Or.inl he))
    have h3 : arg ≠ "--aspect" := fun he => harg (Or.inr (Or.inr he))
    rw [show parseVideoArgsGo (arg :: rest) parts none m d a =
          parseVideoArgsGo rest (parts ++ [arg]) none m d a from by
        simp [parseVideoArgsGo, h1, h2, h3]]
    rw [ih hrest (parts ++ [arg]) m d a]
    simp

/-- Scanning past a flag-free run only moves it into the accumulator. -/
theorem parseVideoArgsGo_append (pre : List String)
    (h : ∀ t ∈ pre, ¬ isVideoFlag t) :
    ∀ (xs parts : List String) (m d a : Option String),
      parseVideoArgsGo (pre ++ xs) parts none m d a =
        parseVideoArgsGo xs (parts ++ pre) none m d a := by
  induction pre with
  | nil => intro xs parts m d a; simp
  | cons p pre2 ih =>
    intro xs parts m d a
    have hp : ¬ isVideoFlag p := h p (by simp)
    have hpre2 : ∀ t ∈ pre2, ¬ isVideoFlag t := fun t ht => h t (by simp [ht])
    have h1 : p ≠ "--model" := fun he => hp (Or.inl he)
    have h2 : p ≠ "--duration" := fun he => hp (Or.inr (Or.inl he))
    have h3 : p ≠ "--aspect" := fun he => hp (Or.inr (Or.inr he))
    rw [List.cons_append]
    rw [show parseVideoArgsGo (p :: (pre2 ++ xs)) parts none m d a =
          parseVideoArgsGo (pre2 ++ xs) (parts ++ [p]) none m d a from by
        simp [parseVideoArgsGo, h1, h2, h3]]
    rw [ih hpre2 xs (parts ++ [p]) m d a]
    simp

/-- A recognized flag with a following token consumes exactly that token
as its value: the `--model` case. -/
theorem parseVideoArgs_model (pre post : List String) (v : String)
    (hpre : ∀ t ∈ pre, ¬ isVideoFlag t) (hpost : ∀ t ∈ post, ¬ isVideoFlag t) :
    parseVideoArgs (pre ++ "--model" :: v :: post) =
      { prompt := joinSp (pre ++ post), model := some v } := by
  unfold parseVideoArgs
  rw [parseVideoArgsGo_append pre hpre]
  rw [show parseVideoArgsGo ("--model" :: v :: post) ([] ++ pre) none none none none =
        parseVideoArgsGo post ([] ++ pre) none (some v) none none from by
      simp [parseVideoArgsGo]]
  rw [parseVideoArgsGo_flagFree post hpost]
  simp

/-- A recognized flag with a following token consumes exactly that token
as its value: the `--duration` case. -/
theorem parseVideoArgs_duration (pre post : List String) (v : String)
    (hpre : ∀ t ∈ pre, ¬ isVideoFlag t) (hpost : ∀ t ∈ post, ¬ isVideoFlag t) :
    parseVideoArgs (pre ++ "--duration" :: v :: post) =
      { prompt := joinSp (pre ++ post), duration := some v } := by
  unfold parseVideoArgs
  rw [parseVideoArgsGo_append pre hpre]
  rw [show parseVideoArgsGo ("--duration" :: v :: post) ([] ++ pre) none none none none =
        parseVideoArgsGo post ([] ++ pre) none none (some v) none from by
      simp [parseVideoArgsGo]]
  rw [parseVideoArgsGo_flagFree post hpost]
  simp

/-- A recognized flag with a following token consumes exactly that token
as its value: the `--aspect` case. -/
theorem parseVideoArgs_aspect (pre post : List String) (v : String)
    (hpre : ∀ t ∈ pre, ¬ isVideoFlag t) (hpost : ∀ t ∈ post, ¬ isVideoFlag t) :
    parseVideoArgs (pre ++ "--aspect" :: v :: post) =
      { prompt := joinSp (pre ++ post), aspectRatio := some v } := by
  unfold parseVideoArgs
  rw [parseVideoArgsGo_append pre hpre]
  rw [show parseVideoArgsGo ("--aspect" :: v :: post) ([] ++ pre) none none none none =
        parseVideoArgsGo post ([] ++ pre) none none none (some v) from by
      simp [parseVideoArgsGo]]
  rw [parseVideoArgsGo_flagFree post hpost]
  simp

/-- C4: the parser scans left to right; each of `--model`, `--duration`,
`--aspect` consumes exactly the one following token as its value when one
exists; a trailing flag with no following token is appended to the prompt
as plain text; all non-flag non-consumed tokens are joined with a single
space in original order; the empty token list yields the empty prompt.
(The parser is a total Lean function, so it never throws.) -/
theorem claim_C4 :
    parseVideoArgs [] = { prompt := "" } ∧
    (∀ args : List String, (∀ t ∈ args, ¬ isVideoFlag t) →
      parseVideoArgs args = { prompt := joinSp args }) ∧
    (∀ (args : List String) (f : String), isVideoFlag f → (∀ t ∈ args, ¬ isVideoFlag t) →
      parseVideoArgs (args ++ [f]) = { prompt := joinSp (args ++ [f]) }) ∧
    (∀ (pre post : List String) (v : String),
      (∀ t ∈ pre, ¬ isVideoFlag t) → (∀ t ∈ post, ¬ isVideoFlag t) →
      parseVideoArgs (pre ++ "--model" :: v :: post) =
        { prompt := joinSp (pre ++ post), model := some v }) ∧
    (∀ (pre post : List String) (v : String),
      (∀ t ∈ pre, ¬ isVideoFlag t) → (∀ t ∈ post, ¬ isVideoFlag t) →
      parseVideoArgs (pre ++ "--duration" :: v :: post) =
        { prompt := joinSp (pre ++ post), duration := some v }) ∧
    (∀ (pre post : List String) (v : String),
      (∀ t ∈ pre, ¬ isVideoFlag t) → (∀ t ∈ post, ¬ isVideoFlag t) →
      parseVideoArgs (pre ++ "--aspect" :: v :: post) =
        { prompt := joinSp (pre ++ post), aspectRatio := some v }) := by
  refine ⟨rfl, ?_, ?_, parseVideoArgs_model, parseVideoArgs_duration, parseVideoArgs_aspect⟩
  · intro args h
    unfold parseVideoArgs
    rw [parseVideoArgsGo_flagFree args h]
    simp
  · intro args f hf h
    unfold parseVideoArgs
    rw [parseVideoArgsGo_append args h]
    rcases hf with hf | hf | hf <;> subst hf <;> simp [parseVideoArgsGo]

/-- Witness for C4 at concrete inputs: `["a","cat","--model","wan-2.1"]`
parses to prompt `"a cat"` with model override, and a trailing
`--duration` flag is treated as prompt text. -/
theorem claim_C4_w :
    parseVideoArgs ["a", "cat", "--model", "wan-2.1"] =
      { prompt := "a cat", model := some "wan-2.1" } ∧
    parseVideoArgs ["a", "cat", "--duration"] = { prompt := "a cat --duration" } := by
  constructor
  · have h := claim_C4.2.2.2.1 ["a", "cat"] [] "wan-2.1" (by decide) (by decide)
    rw [show (["a", "cat"] ++ "--model" :: "wan-2.1" :: ([] : List String)) =
          ["a", "cat", "--model", "wan-2.1"] from rfl] at h
    rw [h]; decide
  · have h := claim_C4.2.2.1 ["a", "cat"] "--duration" (by decide) (by decide)
    rw [show (["a", "cat"] ++ ["--duration"]) = ["a", "cat", "--duration"] from rfl] at h
    rw [h]; decide

/-- C5: the normalizer first attempts JSON parsing and returns the url and
error fields of a parsed object; when parsing fails it wraps the raw
string as a URL exactly when it starts with the literal prefix `http`, and
as an error otherwise. -/
theorem claim_C5 (raw : String) :
    (∀ obj, jsonParse raw = some obj →
      parseSocketResponse raw = { url := jsField obj "url", error := jsField obj "error" }) ∧
    (jsonParse raw = none →
      parseSocketResponse raw =
        if strStartsWith raw "http" then { url := some raw, error := none }
        else { url := none, error := some raw }) := by
  constructor
  · intro obj h
    unfold parseSocketResponse
    rw [h]
  · intro h
    unfold parseSocketResponse
    rw [h]

/-- Witness for C5: the non-JSON http-prefixed broker reply from the spec
normalizes to a bare URL. -/
theorem claim_C5_w :
    parseSocketResponse "https://cdn.example.com/video.mp4" =
      { url := some "https://cdn.example.com/video.mp4", error := none } := by
  have h := (claim_C5 "https://cdn.example.com/video.mp4").2 (by decide)
  rw [h]; decide

/-! ## Error sanitization (claim C1) -/

/-- C1 (amended): for every truthy broker error identifier the chat reply
is the actionable credits message exactly for `insufficient_credits` and
the generic failure message otherwise, while the `generate_video` tool
reply is the generic failure message for every identifier (no credits
special case on that path); both replies are fixed constants that never
embed the identifiers the broker protocol uses. -/
theorem claim_C1 (u : Option String) (e : String) (he : e ≠ "") :
    chatResultReply { url := u, error := some e } =
      (if e = "insufficient_credits" then insufficientCreditsMsg else genericFailureMsg) ∧
    toolResult { url := u, error := some e } =
      { content := [{ type := "text", text := genericFailureMsg }], isError := some true } ∧
    (chatResultReply { url := u, error := some e } = insufficientCreditsMsg ∨
      chatResultReply { url := u, error := some e } = genericFailureMsg) ∧
    containsStr insufficientCreditsMsg "credits" = true ∧
    containsStr genericFailureMsg "insufficient_credits" = false ∧
    containsStr insufficientCreditsMsg "insufficient_credits" = false ∧
    containsStr genericFailureMsg "model_unavailable" = false := by
  refine ⟨?_, ?_, ?_, by decide, by decide, by decide, by decide⟩
  · simp [chatResultReply, jsTruthy, he]
  · simp [toolResult, jsTruthy, he]
  · by_cases hi : e = "insufficient_credits"
    · left; simp [chatResultReply, jsTruthy, he, hi]
    · right; simp [chatResultReply, jsTruthy, he, hi]

/-- The claim as frozen is false on the `generate_video` path: for broker
error `insufficient_credits` the tool replies with the generic failure
message, which does not instruct the user to add credits (it does not even
contain the word credit). -/
theorem claim_C1_cex :
    (generateVideoTool true "a sunset" none none none none
        (InjectResponse.ok "\x7b\"error\":\"insufficient_credits\"\x7d")).result =
      { content := [{ type := "text", text := genericFailureMsg }], isError := some true } ∧
    containsStr genericFailureMsg "credit" = false := by decide

/-- Witness for C1 at the spec's own example identifier. -/
theorem claim_C1_w :
    chatResultReply { url := none, error := some "model_unavailable" } = genericFailureMsg := by
  have h := (claim_C1 none "model_unavailable" (by decide)).1
  rw [h]; decide

/-! ## The confirmation gate (claim C2) -/

/-- The gate accepts exactly the responses whose trimmed, lower-cased text
is `yes` or `y`. -/
theorem confirmAffirmative_iff (o : Option String) :
    confirmAffirmative o = true ↔
      ∃ s, o = some s ∧ (jsTrimLowerCase s = "yes" ∨ jsTrimLowerCase s = "y") := by
  cases o with
  | none => simp [confirmAffirmative]
  | some s =>
    by_cases hs : s = ""
    · subst hs
      constructor
      · intro h; exact absurd h (by decide)
      · rintro ⟨t, ht, hy⟩
        obtain rfl : "" = t := Option.some.inj ht
        revert hy; decide
    · simp only [confirmAffirmative, Option.some.injEq, if_neg hs]
      by_cases h1 : jsTrimLowerCase s = "yes" <;> by_cases h2 : jsTrimLowerCase s = "y" <;>
        simp [h1, h2]

/-- C2: on the chat path (past the subcommand and empty-prompt returns),
the broker capability dispatch happens if and only if the confirmation
response, trimmed and lower-cased, equals `yes` or `y`; on any other
response exactly one reply is sent, it is the cancellation notice (which
contains "cancelled"), and the broker is never contacted. -/
theorem claim_C2 (args : List String) (config : VideoGenConfig)
    (confirm : Option String) (cap : InjectResponse)
    (hs : args.head? ≠ some "settings") (hm : args.head? ≠ some "models")
    (hp : (parseVideoArgs args).prompt ≠ "") :
    ((handleVideoCommand args config confirm cap).capabilityCalled = true ↔
      ∃ s, confirm = some s ∧ (jsTrimLowerCase s = "yes" ∨ jsTrimLowerCase s = "y")) ∧
    (confirmAffirmative confirm = false →
      (handleVideoCommand args config confirm cap).replies = [cancelledMsg] ∧
      (handleVideoCommand args config confirm cap).capabilityCalled = false ∧
      containsStr cancelledMsg "cancelled" = true) := by
  rw [← confirmAffirmative_iff]
  simp only [handleVideoCommand]
  rw [if_neg hs, if_neg hm, if_neg hp]
  cases hc : confirmAffirmative confirm with
  | false =>
    refine ⟨by simp, fun _ => ⟨by simp, by simp, by decide⟩⟩
  | true =>
    cases cap with
    | ok raw => exact ⟨by simp, fun hfc => absurd hfc (by simp)⟩
    | thrown => exact ⟨by simp, fun hfc => absurd hfc (by simp)⟩

/-- Witness for C2: a declined confirmation at a concrete command. -/
theorem claim_C2_w :
    (handleVideoCommand ["a", "cat"] {} (some "no") (InjectResponse.ok "x")).replies =
      [cancelledMsg] ∧
    (handleVideoCommand ["a", "cat"] {} (some "no") (InjectResponse.ok "x")).capabilityCalled =
      false ∧
    containsStr cancelledMsg "cancelled" = true := by
  exact (claim_C2 ["a", "cat"] {} (some "no") (InjectResponse.ok "x")
    (by decide) (by decide) (by decide)).2 (by decide)

/-! ## Chat path vs. agent-tool path (claim C3) -/

/-- C3 (amended): for corresponding inputs the two call sites build
identical capability payloads, and they map the broker's response to the
same outcome text whenever the result carries a truthy url, or a truthy
error other than `insufficient_credits`; the two paths diverge on
`insufficient_credits` and on missing-URL results (different notice
texts). -/
theorem claim_C3 (parsed : ParsedVideoArgs) (config : VideoGenConfig) (r : SocketResult) :
    chatCapabilityRequest parsed config =
      toolCapabilityRequest parsed.prompt parsed.model (parsed.duration.map jsNumber)
        parsed.aspectRatio (some config) ∧
    (jsTruthy r.url = true → jsTruthy r.error = false →
      toolResult r = { content := [{ type := "text", text := chatResultReply r }],
                       isError := none }) ∧
    (jsTruthy r.error = true → r.error ≠ some "insufficient_credits" →
      chatResultReply r = genericFailureMsg ∧
      toolResult r = { content := [{ type := "text", text := genericFailureMsg }],
                       isError := some true }) := by
  refine ⟨?_, ?_, ?_⟩
  · obtain ⟨p, mo, du, asp⟩ := parsed
    cases du <;> rfl
  · intro hu he
    obtain ⟨ru, re⟩ := r
    cases ru with
    | none => simp [jsTruthy] at hu
    | some u => simp [toolResult, chatResultReply, he, hu]
  · intro he hne
    obtain ⟨ru, re⟩ := r
    exact ⟨by simp [chatResultReply, he, hne], by simp [toolResult, he]⟩

/-- The claim as frozen is false: on the broker response
`\x7b"error":"insufficient_credits"\x7d` the chat path and the tool path
produce different user-visible outcome texts. -/
theorem claim_C3_cex :
    toolResult (parseSocketResponse "\x7b\"error\":\"insufficient_credits\"\x7d") ≠
      { content :=
          [{ type := "text",
             text := chatResultReply
               (parseSocketResponse "\x7b\"error\":\"insufficient_credits\"\x7d") }],
        isError := some true } := by decide

/-- Witness for C3 at a concrete URL-carrying result. -/
theorem claim_C3_w :
    toolResult { url := some "https://x", error := none } =
      { content :=
          [{ type := "text",
             text := chatResultReply { url := some "https://x", error := none } }],
        isError := none } := by
  exact (claim_C3 { prompt := "" } {} { url := some "https://x", error := none }).2.1
    (by decide) (by decide)

/-! ## The dispatched payload (claim C6) -/

/-- Every payload the chat handler dispatches is the shared envelope built
from the parsed arguments and the configuration. -/
theorem handleVideoCommand_payload (args : List String) (config : VideoGenConfig)
    (confirm : Option String) (cap : InjectResponse) :
    (handleVideoCommand args config confirm cap).payload = none ∨
    (handleVideoCommand args config confirm cap).payload =
      some (chatCapabilityRequest (parseVideoArgs args) config) := by
  by_cases h1 : args.head? = some "settings"
  · simp [handleVideoCommand, h1]
  · by_cases h2 : args.head? = some "models"
    · simp [handleVideoCommand, h1, h2]
    · by_cases h3 : (parseVideoArgs args).prompt = ""
      · simp [handleVideoCommand, h1, h2, h3]
      · cases hc : confirmAffirmative confirm
        · simp [handleVideoCommand, h1, h2, h3, hc]
        · cases cap <;> simp [handleVideoCommand, h1, h2, h3, hc]

/-- Every payload the `generate_video` tool dispatches is the shared
envelope built from its arguments and the init-time snapshot. -/
theorem generateVideoTool_payload (b : Bool) (prompt : String) (mA : Option String)
    (dA : Option JsNum) (aA : Option String) (cfg : Option VideoGenConfig)
    (cap : InjectResponse) :
    (generateVideoTool b prompt mA dA aA cfg cap).payload = none ∨
    (generateVideoTool b prompt mA dA aA cfg cap).payload =
      some (toolCapabilityRequest prompt mA dA aA cfg) := by
  cases b <;> cases cap <;> simp [generateVideoTool]

/-- The conditional API-key spread never produces an empty-string key, and
produces a key exactly when the configured key is a non-empty string. -/
theorem jsApiKeyField_spec (k : Option String) :
    jsApiKeyField k ≠ some "" ∧
    ((jsApiKeyField k).isSome = true ↔ ∃ s, k = some s ∧ s ≠ "") := by
  cases k with
  | none => simp [jsApiKeyField, jsTruthy]
  | some s =>
    by_cases hs : s = ""
    · subst hs; simp [jsApiKeyField, jsTruthy]
    · simp [jsApiKeyField, jsTruthy, hs]

/-- C6: every dispatched capability request (on either path) is the
envelope with capability `video-generation`; its duration field is a
number — in particular the override token `"10"` becomes the integer 10 —
and its apiKey field is present iff the configured key is a non-empty
string, never the empty string. -/
theorem claim_C6 (args : List String) (config : VideoGenConfig) (confirm : Option String)
    (cap : InjectResponse) (b : Bool) (prompt : String) (mA : Option String) (dA : Option JsNum)
    (aA : Option String) (cfg : Option VideoGenConfig) (r : CapabilityRequest) :
    ((handleVideoCommand args config confirm cap).payload = some r →
      r = chatCapabilityRequest (parseVideoArgs args) config) ∧
    ((generateVideoTool b prompt mA dA aA cfg cap).payload = some r →
      r = toolCapabilityRequest prompt mA dA aA cfg) ∧
    (chatCapabilityRequest (parseVideoArgs args) config).capability = "video-generation" ∧
    (toolCapabilityRequest prompt mA dA aA cfg).capability = "video-generation" ∧
    ((parseVideoArgs args).duration = some "10" →
      (chatCapabilityRequest (parseVideoArgs args) config).input.duration = JsNum.int 10) ∧
    (chatCapabilityRequest (parseVideoArgs args) config).input.apiKey ≠ some "" ∧
    ((chatCapabilityRequest (parseVideoArgs args) config).input.apiKey.isSome = true ↔
      ∃ s, config.apiKey = some s ∧ s ≠ "") ∧
    (toolCapabilityRequest prompt mA dA aA cfg).input.apiKey ≠ some "" ∧
    ((toolCapabilityRequest prompt mA dA aA cfg).input.apiKey.isSome = true ↔
      ∃ s, cfg.bind VideoGenConfig.apiKey = some s ∧ s ≠ "") := by
  refine ⟨?_, ?_, rfl, rfl, ?_, (jsApiKeyField_spec config.apiKey).1,
    (jsApiKeyField_spec config.apiKey).2, (jsApiKeyField_spec (cfg.bind VideoGenConfig.apiKey)).1,
    (jsApiKeyField_spec (cfg.bind VideoGenConfig.apiKey)).2⟩
  · intro h
    rcases handleVideoCommand_payload args config confirm cap with h0 | h0 <;> rw [h0] at h
    · exact absurd h (by simp)
    · exact (Option.some.inj h).symm
  · intro h
    rcases generateVideoTool_payload b prompt mA dA aA cfg cap with h0 | h0 <;> rw [h0] at h
    · exact absurd h (by simp)
    · exact (Option.some.inj h).symm
  · intro hd
    show jsNumber ((parseVideoArgs args).duration.getD (config.duration.getD "5")) = JsNum.int 10
    rw [hd, Option.getD_some]
    decide

/-- Witness for C6: the spec's own example, duration token `"10"`. -/
theorem claim_C6_w :
    (chatCapabilityRequest (parseVideoArgs ["a", "bird", "--duration", "10"]) {}).input.duration =
      JsNum.int 10 := by
  exact (claim_C6 ["a", "bird", "--duration", "10"] {} none (InjectResponse.ok "") true ""
    none none none none
    { capability := "",
      input := { prompt := "", model := "", duration := JsNum.nan, aspectRatio := "" } }
    ).2.2.2.2.1 (by decide)

/-! ## Shutdown idempotence (claim C7) -/

/-- C7: `shutdown` without a prior init is a no-op performing no
unregistration, and a second `shutdown` right after a first one is a
no-op performing no unregistration and leaving the state unchanged. -/
theorem claim_C7 (providerExists : String → Bool) (s : PluginState) :
    (s.hasCtx = false → shutdown providerExists s = (s, [])) ∧
    shutdown providerExists (shutdown providerExists s).1 =
      ((shutdown providerExists s).1, []) := by
  constructor
  · intro h; simp [shutdown, h]
  · cases hc : s.hasCtx <;> simp [shutdown, hc]

/-- Witness for C7: shutdown on the never-initialized state. -/
theorem claim_C7_w :
    shutdown (fun _ => true) { hasCtx := false, registeredProviderIds := [], cleanupCount := 0 } =
      ({ hasCtx := false, registeredProviderIds := [], cleanupCount := 0 }, []) := by
  exact (claim_C7 (fun _ => true) _).1 rfl

/-! ## Command registration (claim C8) -/

/-- Folding the registration step appends the providers to both the id
list and the registration log. -/
theorem foldl_registerOn (ps : List String) :
    ∀ s : RegState, ps.foldl registerOn s =
      { registeredProviderIds := s.registeredProviderIds ++ ps,
        registrationLog := s.registrationLog ++ ps } := by
  induction ps with
  | nil => intro s; simp
  | cons p ps2 ih =>
    intro s
    rw [List.foldl_cons, ih]
    simp [registerOn]

/-- The late-join listener never removes a registered id. -/
theorem lateJoinFire_ids_mono (q : List String) :
    ∀ (s : RegState) (p : String), p ∈ s.registeredProviderIds →
      p ∈ (lateJoinFire q s).registeredProviderIds := by
  induction q with
  | nil => intro s p hp; exact hp
  | cons x q2 ih =>
    intro s p hp
    show p ∈ (lateJoinFire q2 _).registeredProviderIds
    apply ih
    by_cases hx : x ∈ s.registeredProviderIds
    · simpa [hx] using hp
    · simp only [if_neg hx, registerOn, List.mem_append]
      exact Or.inl hp

/-- After the late-join listener runs, every provider it saw is in the id
list. -/
theorem lateJoinFire_ids_covers (q : List String) :
    ∀ (s : RegState) (p : String), p ∈ q → p ∈ (lateJoinFire q s).registeredProviderIds := by
  induction q with
  | nil => intro s p hp; simp at hp
  | cons x q2 ih =>
    intro s p hp
    rcases List.mem_cons.mp hp with rfl | hp2
    · show p ∈ (lateJoinFire q2 _).registeredProviderIds
      apply lateJoinFire_ids_mono
      by_cases hx : p ∈ s.registeredProviderIds
      · simp [hx]
      · simp only [if_neg hx, registerOn, List.mem_append]
        exact Or.inr (by simp)
    · exact ih _ p hp2

/-- The late-join listener is a no-op when every provider it sees is
already registered. -/
theorem lateJoinFire_stable (q : List String) :
    ∀ s : RegState, (∀ p ∈ q, p ∈ s.registeredProviderIds) → lateJoinFire q s = s := by
  induction q with
  | nil => intro s _; rfl
  | cons x q2 ih =>
    intro s h
    show List.foldl _ (if x ∈ s.registeredProviderIds then s else registerOn s x) q2 = s
    rw [if_pos (h x (by simp))]
    exact ih s (fun p hp => h p (by simp [hp]))

/-- Firing the same late-join event again registers nothing new. -/
theorem lateJoinFire_idem (q : List String) (s : RegState) :
    lateJoinFire q (lateJoinFire q s) = lateJoinFire q s :=
  lateJoinFire_stable q _ (fun p hp => lateJoinFire_ids_covers q s p hp)

/-- The late-join listener preserves the invariant that the registration
log coincides with the duplicate-free id list. -/
theorem lateJoinFire_inv (q : List String) :
    ∀ s : RegState, s.registrationLog = s.registeredProviderIds →
      s.registeredProviderIds.Nodup →
      (lateJoinFire q s).registrationLog = (lateJoinFire q s).registeredProviderIds ∧
      (lateJoinFire q s).registeredProviderIds.Nodup := by
  induction q with
  | nil => intro s h1 h2; exact ⟨h1, h2⟩
  | cons x q2 ih =>
    intro s h1 h2
    have hstep : lateJoinFire (x :: q2) s =
        lateJoinFire q2 (if x ∈ s.registeredProviderIds then s else registerOn s x) := rfl
    rw [hstep]
    by_cases hx : x ∈ s.registeredProviderIds
    · rw [if_pos hx]; exact ih s h1 h2
    · rw [if_neg hx]
      refine ih _ ?_ ?_
      · simp [registerOn, h1]
      · simp [registerOn, List.nodup_append, h2, hx]

/-- C8: with distinct providers at init, the command is registered exactly
once on each of them; across any sequence of late-join events the
cumulative registration log stays duplicate-free (no provider is ever
registered twice), and firing the same event again registers nothing. -/
theorem claim_C8 (ps : List String) (hps : ps.Nodup) (events : List (List String)) :
    (initRegister ps).registrationLog = ps ∧
    (∀ p ∈ ps, p ∈ (initRegister ps).registrationLog) ∧
    (events.foldl (fun t q => lateJoinFire q t) (initRegister ps)).registrationLog.Nodup ∧
    (∀ (q : List String) (s : RegState), lateJoinFire q (lateJoinFire q s) = lateJoinFire q s) := by
  have hinit : initRegister ps = { registeredProviderIds := ps, registrationLog := ps } := by
    unfold initRegister
    rw [foldl_registerOn]
    simp
  have hfold : ∀ (evs : List (List String)) (s : RegState),
      s.registrationLog = s.registeredProviderIds → s.registeredProviderIds.Nodup →
      (evs.foldl (fun t q => lateJoinFire q t) s).registrationLog =
        (evs.foldl (fun t q => lateJoinFire q t) s).registeredProviderIds ∧
      (evs.foldl (fun t q => lateJoinFire q t) s).registeredProviderIds.Nodup := by
    intro evs
    induction evs with
    | nil => intro s h1 h2; exact ⟨h1, h2⟩
    | cons q evs2 ih =>
      intro s h1 h2
      rw [List.foldl_cons]
      obtain ⟨h1a, h2a⟩ := lateJoinFire_inv q s h1 h2
      exact ih _ h1a h2a
  obtain ⟨ha, hb⟩ := hfold events (initRegister ps) (by rw [hinit]) (by rw [hinit]; exact hps)
  refine ⟨by rw [hinit], ?_, ?_, fun q s => lateJoinFire_idem q s⟩
  · intro p hp; rw [hinit]; exact hp
  · rw [ha]; exact hb

/-- Witness for C8: one init provider, the same two-provider event fired
twice; the registration log stays duplicate-free. -/
theorem claim_C8_w :
    (([["discord", "slack"], ["discord", "slack"]] : List (List String)).foldl
      (fun t q => lateJoinFire q t) (initRegister ["discord"])).registrationLog.Nodup := by
  exact (claim_C8 ["discord"] (by decide) [["discord", "slack"], ["discord", "slack"]]).2.2.1

/-! ## Post-shutdown handler behaviour (claim C9) -/

/-- C9 (amended): once `pluginCtx` is cleared, the `/video` handler
replies nothing and never dispatches, and `generate_video` returns the
not-initialized error without dispatching; `list_video_models` and
`get_video_settings` perform no initialization check — the former returns
the static catalog regardless, the latter falls back to the empty
configuration and reports the defaults (and neither ever contacts the
broker, as their outcomes carry no dispatch). -/
theorem claim_C9 (config : VideoGenConfig) (args : List String) (confirm : Option String)
    (cap : InjectResponse) (prompt : String) (mA : Option String) (dA : Option JsNum)
    (aA : Option String) (cfg : Option VideoGenConfig) (b : Bool) :
    videoCommandHandler false config args confirm cap =
      { replies := [], capabilityCalled := false, payload := none } ∧
    generateVideoTool false prompt mA dA aA cfg cap =
      { result := { content := [{ type := "text", text := notInitializedMsg }],
                    isError := some true },
        capabilityCalled := false, payload := none } ∧
    listVideoModelsTool b = { models := videoModelCatalog, isError := none } ∧
    getVideoSettingsTool false config = getVideoSettingsTool false {} :=
  ⟨rfl, rfl, rfl, rfl⟩

/-- The claim as frozen is false for the two read-only tools: called after
shutdown, `list_video_models` still returns the full static catalog and
`get_video_settings` still returns a normal settings object (the
defaults), rather than checking the initialized state and no-opping. -/
theorem claim_C9_cex :
    (listVideoModelsTool false).models = videoModelCatalog ∧
    (listVideoModelsTool false).models ≠ [] ∧
    getVideoSettingsTool false { model := some "wan-2.1", apiKey := some "k" } =
      { provider := "replicate", model := "minimax-video", duration := "5",
        aspectRatio := "16:9", byokConfigured := false } := by decide

/-! ## Configuration snapshot vs. re-read (claim C10) -/

/-- C10: `generate_video` depends only on the configuration snapshot taken
at init — worlds agreeing on the snapshot give identical outcomes whatever
the current configuration is — whereas the `/video` handler and
`get_video_settings` read the current configuration: two worlds with the
same (absent) snapshot but different current configurations give different
chat outcomes and different settings views. -/
theorem claim_C10 (w1 w2 : PluginWorld) (h : w1.configAtInit = w2.configAtInit)
    (b : Bool) (prompt : String) (mA : Option String) (dA : Option JsNum)
    (aA : Option String) (cap : InjectResponse) :
    generateVideoToolW w1 b prompt mA dA aA cap = generateVideoToolW w2 b prompt mA dA aA cap ∧
    videoCommandHandlerW { configAtInit := none, configCurrent := { model := some "wan-2.1" } }
        true ["a", "cat"] (some "yes") (InjectResponse.ok "u") ≠
      videoCommandHandlerW { configAtInit := none, configCurrent := {} }
        true ["a", "cat"] (some "yes") (InjectResponse.ok "u") ∧
    getVideoSettingsToolW { configAtInit := none, configCurrent := { model := some "wan-2.1" } }
        true ≠
      getVideoSettingsToolW { configAtInit := none, configCurrent := {} } true := by
  refine ⟨?_, by decide, by decide⟩
  unfold generateVideoToolW
  rw [h]

/-- Witness for C10: same snapshot, different current configurations, same
`generate_video` outcome. -/
theorem claim_C10_w :
    generateVideoToolW { configAtInit := some {}, configCurrent := {} } true "p" none none none
        (InjectResponse.ok "u") =
      generateVideoToolW { configAtInit := some {}, configCurrent := { model := some "wan-2.1" } }
        true "p" none none none (InjectResponse.ok "u") := by
  exact (claim_C10 { configAtInit := some {}, configCurrent := {} }
    { configAtInit := some {}, configCurrent := { model := some "wan-2.1" } } rfl
    true "p" none none none (InjectResponse.ok "u")).1

/-- Sanity check of the `JSON.parse` model on the broker's error envelope. -/
theorem jsonParse_error_envelope :
    jsonParse "\x7b\"error\":\"insufficient_credits\"\x7d" =
      some [("error", "insufficient_credits")] ∧
    parseSocketResponse "\x7b\"error\":\"insufficient_credits\"\x7d" =
      { url := none, error := some "insufficient_credits" } := by decide

/-- Sanity check of the `JSON.parse` model on a two-field envelope with
whitespace, and on the empty object. -/
theorem jsonParse_url_envelope :
    jsonParse "\x7b \"url\": \"https://a.b/c\", \"error\": \"x\" \x7d" =
      some [("url", "https://a.b/c"), ("error", "x")] ∧
    jsonParse "\x7b\x7d" = some [] := by decide

/-- Sanity check of the parser and the `Number` model on the spec's
duration example. -/
theorem parseVideoArgs_duration_example :
    parseVideoArgs ["a", "bird", "--duration", "10"] =
      { prompt := "a bird", duration := some "10" } ∧
    jsNumber "10" = JsNum.int 10 := by decide

end VideoGen
